import Mathlib

/-!
Verification of `main.py`: a small web app that requests a PageSpeed
Insights (PSI) audit for a URL, extracts 13 fixed numeric metrics plus a
timestamp and the final URL into a flat row, and inserts that row into a
BigQuery table, rendering a success or failure page.

The embedding models:
* JSON-like Python values (`Json`), with `Json.null` also standing for
  Python's `None` (as returned by `get_psi_audit` on an HTTP error);
* Python exceptions relevant to the program (`PyExc`);
* `datetime.strptime` specialised to the format string
  `%Y-%m-%dT%H:%M:%S.%fZ` used on line 93 of `main.py`, following
  CPython's `_strptime` regexes for each directive and the validation
  performed by the `datetime` constructor;
* the four program functions `get_psi_audit`, `extract_audits`,
  `insert_audits` and `submit_test`, with the BigQuery client and the
  googleapiclient request modelled as explicit stub behaviours, and the
  calls to `logging.exception` recorded in an explicit log.
-/

/-- JSON-like Python values. `Json.null` models both JSON null and Python
`None`. Objects are association lists with the insertion order of keys. -/
inductive Json where
  | null : Json
  | bool (b : Bool) : Json
  | num (q : ℚ) : Json
  | str (s : String) : Json
  | arr (xs : List Json) : Json
  | obj (kvs : List (String × Json)) : Json

/-- The Python exceptions this program can raise. -/
inductive PyExc where
  | keyError (key : String) : PyExc
  | typeError : PyExc
  | valueError (msg : String) : PyExc
  | runtimeError (msg : String) : PyExc
  deriving DecidableEq, Repr

/-- Python subscription `j[k]` with a string key: returns the value for
`k` in a dict, raises `KeyError` when the key is absent, and raises
`TypeError` when `j` is not a dict (in particular when `j` is `None`). -/
def Json.getItem : Json → String → Except PyExc Json
  | .obj kvs, k =>
      match kvs.lookup k with
      | some v => .ok v
      | none => .error (.keyError k)
  | _, _ => .error .typeError

/-! ## `datetime.strptime` for the format `%Y-%m-%dT%H:%M:%S.%fZ`

CPython's `_strptime` compiles the format into a regex built from one
fragment per directive, matched at the start of the string; parsing fails
unless the whole string is consumed.  The fragments used here are
`%Y ↦ \d\d\d\d`, `%m ↦ 1[0-2]|0[1-9]|[1-9]`,
`%d ↦ 3[01]|[12]\d|0[1-9]|[1-9]`, `%H ↦ 2[0-3]|[01]\d|\d`,
`%M ↦ [0-5]\d|\d`, `%S ↦ 6[0-1]|[0-5]\d|\d`, `%f ↦ [0-9]\x7b1,6\x7d`
(greedy), and literals for `-`, `T`, `:`, `.`, `Z`.  The pattern is
compiled with `re.IGNORECASE` and without `re.ASCII`, so the literals
`T` and `Z` also match `t` and `z` (no other codepoint case-folds to
either), `\d` matches every Unicode decimal digit (category `Nd`),
while the explicit classes such as `[0-9]`, `[0-5]`, `[01]`, `[12]`
match only the ASCII characters they list; `int()` on a matched group
gives each Unicode digit its decimal value.  For this format the
first locally matching alternative of a field never needs to be undone:
every field is followed by a non-digit literal (or the end), and the
alternatives of a field differ only in how many digits they consume, so a
longer local match failing the next literal implies the shorter one fails
it too (the next character would be a digit, and no decimal digit equals
any of the literals).  Each field parser below therefore commits to its
first locally matching alternative.
The parsed fields are then validated exactly as the `datetime`
constructor does (`1 ≤ year ≤ 9999`, day within the month, and
`second ≤ 59`, rejecting the leap seconds 60 and 61 that the `%S`
fragment accepts). -/

/-- The result of `datetime.strptime`: a naive datetime value. -/
structure PyDateTime where
  year : Nat
  month : Nat
  day : Nat
  hour : Nat
  minute : Nat
  second : Nat
  microsecond : Nat
  deriving DecidableEq, Repr

/-- Numeric value of an ASCII decimal digit character. -/
def digVal (c : Char) : Nat := c.toNat - 48

/-- The zero digit of every run of Unicode decimal digits (category
`Nd`, Unicode 14.0.0 as used by CPython 3.11): every `Nd` character is
`z + v` for exactly one of these `z` and one digit value `v ≤ 9`. -/
def ndZeros : List Nat :=
  [48, 1632, 1776, 1984, 2406, 2534, 2662, 2790, 2918, 3046, 3174, 3302,
   3430, 3558, 3664, 3792, 3872, 4160, 4240, 6112, 6160, 6470, 6608, 6784,
   6800, 6992, 7088, 7232, 7248, 42528, 43216, 43264, 43472, 43504, 43600,
   44016, 65296, 66720, 68912, 69734, 69872, 69942, 70096, 70384, 70736,
   70864, 71248, 71360, 71472, 71904, 72016, 72784, 73040, 73120, 92768,
   92864, 93008, 120782, 120792, 120802, 120812, 120822, 123200, 123632,
   125264, 130032]

/-- The regex class `\d` of the compiled `_strptime` pattern: any
Unicode decimal digit (category `Nd`), not only ASCII. -/
def isPyDigit (c : Char) : Bool :=
  ndZeros.any (fun z => z ≤ c.toNat && c.toNat ≤ z + 9)

/-- The decimal value of a Unicode digit, as `int()` computes it on a
matched group. -/
def pyDigVal (c : Char) : Nat :=
  match ndZeros.find? (fun z => z ≤ c.toNat && c.toNat ≤ z + 9) with
  | some z => c.toNat - z
  | none => 0

/-- Parse one digit satisfying `p`. -/
def pDigit1 (p : Char → Bool) : List Char → Option (Nat × List Char)
  | c :: rest => if p c then some (pyDigVal c, rest) else none
  | [] => none

/-- Parse two digits, the first satisfying `p1` and the second `p2`. -/
def pDigit2 (p1 p2 : Char → Bool) : List Char → Option (Nat × List Char)
  | c1 :: c2 :: rest =>
      if p1 c1 && p2 c2 then some (pyDigVal c1 * 10 + pyDigVal c2, rest)
      else none
  | _ => none

/-- Ordered choice between field parsers (first match commits). -/
def pAlt (p q : List Char → Option (Nat × List Char)) :
    List Char → Option (Nat × List Char) :=
  fun cs => (p cs).orElse (fun _ => q cs)

/-- An uncased literal character of the format (`-`, `:`, `.`). -/
def pLit (c : Char) : List Char → Option (List Char)
  | d :: rest => if d = c then some rest else none
  | [] => none

/-- A cased literal of the format: under `re.IGNORECASE` the literals
`T` and `Z` also match their lowercase forms, and no other codepoint
case-folds to either. -/
def pLitCase (up lo : Char) : List Char → Option (List Char)
  | d :: rest => if d = up || d = lo then some rest else none
  | [] => none

/-- `%Y`: exactly four `\d` digits (Unicode-wide). -/
def pYear : List Char → Option (Nat × List Char)
  | c1 :: c2 :: c3 :: c4 :: rest =>
      if isPyDigit c1 && isPyDigit c2 && isPyDigit c3 && isPyDigit c4 then
        some (pyDigVal c1 * 1000 + pyDigVal c2 * 100 + pyDigVal c3 * 10
          + pyDigVal c4, rest)
      else none
  | _ => none

/-- `%m`: `1[0-2]|0[1-9]|[1-9]`. -/
def pMonth : List Char → Option (Nat × List Char) :=
  pAlt (pDigit2 (· = '1') (fun c => '0' ≤ c && c ≤ '2'))
    (pAlt (pDigit2 (· = '0') (fun c => '1' ≤ c && c ≤ '9'))
      (pDigit1 (fun c => '1' ≤ c && c ≤ '9')))

/-- `%d`: `3[01]|[12]\d|0[1-9]|[1-9]`. -/
def pDay : List Char → Option (Nat × List Char) :=
  pAlt (pDigit2 (· = '3') (fun c => '0' ≤ c && c ≤ '1'))
    (pAlt (pDigit2 (fun c => '1' ≤ c && c ≤ '2') isPyDigit)
      (pAlt (pDigit2 (· = '0') (fun c => '1' ≤ c && c ≤ '9'))
        (pDigit1 (fun c => '1' ≤ c && c ≤ '9'))))

/-- `%H`: `2[0-3]|[01]\d|\d`. -/
def pHour : List Char → Option (Nat × List Char) :=
  pAlt (pDigit2 (· = '2') (fun c => '0' ≤ c && c ≤ '3'))
    (pAlt (pDigit2 (fun c => '0' ≤ c && c ≤ '1') isPyDigit)
      (pDigit1 isPyDigit))

/-- `%M`: `[0-5]\d|\d`. -/
def pMinute : List Char → Option (Nat × List Char) :=
  pAlt (pDigit2 (fun c => '0' ≤ c && c ≤ '5') isPyDigit)
    (pDigit1 isPyDigit)

/-- `%S`: `6[0-1]|[0-5]\d|\d` (CPython accepts leap seconds here; the
`datetime` constructor rejects them afterwards). -/
def pSecond : List Char → Option (Nat × List Char) :=
  pAlt (pDigit2 (· = '6') (fun c => '0' ≤ c && c ≤ '1'))
    (pAlt (pDigit2 (fun c => '0' ≤ c && c ≤ '5') isPyDigit)
      (pDigit1 isPyDigit))

/-- `%f`: one to six `[0-9]` digits (ASCII only), greedy; the value is
right-padded with zeros to microseconds (`int(s + "0" * (6 - len(s)))`). -/
def pFrac (cs : List Char) : Option (Nat × List Char) :=
  let digs := (cs.takeWhile Char.isDigit).take 6
  if digs.isEmpty then none
  else
    some ((digs.foldl (fun n c => n * 10 + digVal c) 0) * 10 ^ (6 - digs.length),
      cs.drop digs.length)

/-- Whether `y` is a leap year (Gregorian rule, as in `calendar.isleap`). -/
def isLeapYear (y : Nat) : Bool :=
  (y % 4 = 0 && y % 100 ≠ 0) || y % 400 = 0

/-- Days in month `m` of year `y` (as in `calendar.monthrange`). -/
def daysInMonth (y m : Nat) : Nat :=
  if m = 2 then (if isLeapYear y then 29 else 28)
  else if m = 4 || m = 6 || m = 9 || m = 11 then 30
  else 31

/-- `datetime.strptime(s, "%Y-%m-%dT%H:%M:%S.%fZ")`: `some` of the parsed
datetime, or `none` when the string does not match the format or the
`datetime` constructor rejects the parsed fields (CPython raises
`ValueError` in both cases). -/
def strptimePSI (s : String) : Option PyDateTime := do
  let cs := s.data
  let (y, cs) ← pYear cs
  let cs ← pLit '-' cs
  let (mo, cs) ← pMonth cs
  let cs ← pLit '-' cs
  let (d, cs) ← pDay cs
  let cs ← pLitCase 'T' 't' cs
  let (h, cs) ← pHour cs
  let cs ← pLit ':' cs
  let (mi, cs) ← pMinute cs
  let cs ← pLit ':' cs
  let (sec, cs) ← pSecond cs
  let cs ← pLit '.' cs
  let (f, cs) ← pFrac cs
  let cs ← pLitCase 'Z' 'z' cs
  if cs.isEmpty then
    if 1 ≤ y && y ≤ 9999 && 1 ≤ mo && mo ≤ 12 && 1 ≤ d && d ≤ daysInMonth y mo
        && h ≤ 23 && mi ≤ 59 && sec ≤ 59 && f ≤ 999999 then
      some ⟨y, mo, d, h, mi, sec, f⟩
    else none
  else none

/-! ## `extract_audits` (main.py lines 63-98) -/

/-- A row value: either the `datetime` stored under `date` or a JSON
value passed through unchanged. -/
inductive PyVal where
  | dt (d : PyDateTime) : PyVal
  | json (j : Json) : PyVal

/-- A Python dict used as a BigQuery row: an association list in key
insertion order (all keys inserted by the program are distinct). -/
abbrev Row := List (String × PyVal)

/-- The `audits` dict of `extract_audits` (main.py lines 75-89), mapping
each hyphenated Lighthouse audit id to its underscored output key, in
source order. -/
def auditsMap : List (String × String) :=
  [("speed-index", "speed_index"),
   ("first-contentful-paint", "first_contentful_paint"),
   ("first-meaningful-paint", "first_meaningful_paint"),
   ("server-response-time", "server_response_time"),
   ("network-server-latency", "network_server_latency"),
   ("cumulative-layout-shift", "cumulative_layout_shift"),
   ("interactive", "interactive"),
   ("largest-contentful-paint", "largest_contentful_paint"),
   ("total-blocking-time", "total_blocking_time"),
   ("first-cpu-idle", "first_cpu_idle"),
   ("max-potential-fid", "max_potential_fid"),
   ("total-byte-weight", "total_byte_weight"),
   ("estimated-input-latency", "estimated_input_latency")]

/-- `datetime.strptime(j, "%Y-%m-%dT%H:%M:%S.%fZ")` applied to a looked-up
JSON value: `TypeError` when the argument is not a string, `ValueError`
when the string does not match the format. -/
def parseTimestamp (j : Json) : Except PyExc PyDateTime :=
  match j with
  | .str s =>
      match strptimePSI s with
      | some d => .ok d
      | none => .error (.valueError "time data does not match format")
  | _ => .error .typeError

/-- `psi_json["lighthouseResult"]["finalUrl"]` (main.py line 94). -/
def urlLookup (psi_json : Json) : Except PyExc Json := do
  let lr ← psi_json.getItem "lighthouseResult"
  lr.getItem "finalUrl"

/-- `psi_json["lighthouseResult"]["audits"][a]["numericValue"]`
(main.py line 96), looked up afresh on every loop iteration. -/
def metricLookup (psi_json : Json) (a : String) : Except PyExc Json := do
  let lr ← psi_json.getItem "lighthouseResult"
  let au ← lr.getItem "audits"
  let entry ← au.getItem a
  entry.getItem "numericValue"

/-- The `for a in audits` loop of `extract_audits` (main.py lines 95-96):
returns the key/value pairs appended to `to_return`, and the exception
that aborted the loop, if any (later assignments do not happen then). -/
def extractLoop (psi_json : Json) : List (String × String) → Row × Option PyExc
  | [] => ([], none)
  | (a, name) :: rest =>
      match metricLookup psi_json a with
      | .error e => ([], some e)
      | .ok v =>
          match extractLoop psi_json rest with
          | (r, exc) => ((name, PyVal.json v) :: r, exc)

/-- The statements of `extract_audits` (main.py lines 91-98) with the
partially built `to_return` dict made explicit: the contents of
`to_return` at the end of the call, and the exception that aborted the
function, if any. -/
def extract_auditsRun (psi_json : Json) : Row × Option PyExc :=
  match psi_json.getItem "analysisUTCTimestamp" with
  | .error e => ([], some e)
  | .ok ts =>
      match parseTimestamp ts with
      | .error e => ([], some e)
      | .ok d =>
          match urlLookup psi_json with
          | .error e => ([("date", PyVal.dt d)], some e)
          | .ok u =>
              match extractLoop psi_json auditsMap with
              | (r, exc) =>
                  (("date", PyVal.dt d) :: ("url", PyVal.json u) :: r, exc)

/-- `extract_audits` (main.py lines 63-98): the returned row, or the
exception raised. -/
def extract_audits (psi_json : Json) : Except PyExc Row :=
  match extract_auditsRun psi_json with
  | (row, none) => .ok row
  | (_, some e) => .error e

/-- `extract_audits` with the Python heap of dicts explicit: `to_return`
is allocated fresh at address `h.length`; the function only reads
`psi_json` and writes the new dict, so the heap after the call is the old
heap with the (possibly partial) new row appended, whether the call
returns the fresh address or raises. -/
def extract_auditsHeap (h : List Row) (psi_json : Json) :
    List Row × Except PyExc Nat :=
  match extract_auditsRun psi_json with
  | (row, none) => (h ++ [row], .ok h.length)
  | (row, some e) => (h ++ [row], .error e)

/-! ## `get_psi_audit` (main.py lines 34-60) -/

/-- A `googleapiclient.errors.HttpError`. -/
structure HttpError where
  status_code : Nat
  error_details : String
  deriving DecidableEq, Repr

/-- One `logging.exception` call. -/
inductive LogEntry where
  | psiError (status_code : Nat) (error_details : String) : LogEntry
  | errLog (e : PyExc) : LogEntry
  deriving DecidableEq, Repr

/-- `get_psi_audit` (main.py lines 34-60).  `api` models
`psi_request.execute()` for the built PERFORMANCE/MOBILE request: it
either returns the parsed response or raises an `HttpError`.  On
`HttpError` the function logs the status code and error details and falls
through to `return typing.cast(dict, psi_response)` with `psi_response`
still `None` (modelled as `Json.null`); the error is never re-raised. -/
def get_psi_audit (api : String → Except HttpError Json) (test_url : String) :
    List LogEntry × Json :=
  match api test_url with
  | .ok r => ([], r)
  | .error he => ([.psiError he.status_code he.error_details], .null)

/-! ## `insert_audits` (main.py lines 101-118) -/

/-- Behaviour of the BigQuery client: `getTable` models
`bq_client.get_table` (which may raise, e.g. `NotFound`), and `rowErrors`
models the per-row error list that `bq_client.insert_rows` returns for a
given table and batch. -/
structure BQBehavior where
  getTable : String → Except PyExc String
  rowErrors : String → List Row → List String

/-- The rows inserted so far, as (table, batch) pairs. -/
structure BQState where
  batches : List (String × List Row)

/-- `bq_client.insert_rows(table, rows)`: records the batch and returns
the per-row error list. -/
def insert_rows (beh : BQBehavior) (st : BQState) (tbl : String)
    (rows : List Row) : BQState × List String :=
  (⟨st.batches ++ [(tbl, rows)]⟩, beh.rowErrors tbl rows)

/-- `str()` of a Python list of strings, as interpolated by the f-string
on main.py line 118. -/
def pyListStr (xs : List String) : String :=
  "[" ++ String.intercalate ", " (xs.map (fun s => "\x27" ++ s ++ "\x27")) ++ "]"

/-- `insert_audits` (main.py lines 101-118): reads
`GOOGLE_CLOUD_PROJECT` from the environment (`KeyError` when absent),
resolves the table `f"{project_name}.{table}"`, inserts `[audits]` as a
single-row batch, and raises `RuntimeError` with the error list in the
message exactly when `insert_rows` returned a non-empty error list. -/
def insert_audits (env : String → Option String) (beh : BQBehavior)
    (st : BQState) (table : String) (audits : Row) :
    BQState × Except PyExc Unit :=
  match env "GOOGLE_CLOUD_PROJECT" with
  | none => (st, .error (.keyError "GOOGLE_CLOUD_PROJECT"))
  | some project_name =>
      match beh.getTable (project_name ++ "." ++ table) with
      | .error e => (st, .error e)
      | .ok bq_table =>
          match insert_rows beh st bq_table [audits] with
          | (st2, errors) =>
              if errors.isEmpty then (st2, .ok ())
              else
                (st2, .error (.runtimeError
                  ("Failed to write all rows to bigquery: "
                    ++ pyListStr errors ++ ".")))

/-! ## `submit_test` (main.py lines 127-140) -/

/-- A rendered `index.html` with its `state` template variable. -/
inductive Render where
  | index (state : Option String) : Render
  deriving DecidableEq, Repr

/-- `isinstance(err, (ValueError, RuntimeError))`: the exception classes
caught by the `except` clause on main.py line 136. -/
def PyExc.isCaught : PyExc → Bool
  | .valueError _ => true
  | .runtimeError _ => true
  | _ => false

/-- `submit_test` (main.py lines 127-140).  Returns the log entries
written, the BigQuery state after the request, and either the rendered
page or the exception that escaped the handler.  Only the
`insert_audits` call is inside the `try`, and only `ValueError` and
`RuntimeError` are caught there; exceptions raised while reading the
form, extracting the audits, or reading `BIGQUERY_TABLE` propagate. -/
def submit_test (env : String → Option String) (beh : BQBehavior)
    (st : BQState) (api : String → Except HttpError Json)
    (form : String → Option String) :
    List LogEntry × BQState × Except PyExc Render :=
  match form "test_url" with
  | none => ([], st, .error (.keyError "test_url"))
  | some test_url =>
      match get_psi_audit api test_url with
      | (psiLogs, psi_object) =>
          match extract_audits psi_object with
          | .error e => (psiLogs, st, .error e)
          | .ok audits =>
              match env "BIGQUERY_TABLE" with
              | none => (psiLogs, st, .error (.keyError "BIGQUERY_TABLE"))
              | some bq_table =>
                  match insert_audits env beh st bq_table audits with
                  | (st2, .ok _) =>
                      (psiLogs, st2, .ok (Render.index (some "success")))
                  | (st2, .error err) =>
                      if err.isCaught then
                        (psiLogs ++ [.errLog err], st2,
                          .ok (Render.index (some "failure")))
                      else (psiLogs, st2, .error err)

/-- `index_page` (main.py lines 121-124). -/
def index_page : Render := Render.index none

/-! ## Shared concrete inputs for witnesses -/

/-- A complete well-formed `lighthouseResult.audits` object: every
required audit id carries `numericValue` 1234. -/
def sampleAudits : Json :=
  Json.obj (auditsMap.map (fun p => (p.1, Json.obj [("numericValue", Json.num 1234)])))

/-- A complete well-formed PSI response. -/
def samplePsi : Json :=
  Json.obj
    [("analysisUTCTimestamp", Json.str "2022-05-01T12:34:56.789012Z"),
     ("lighthouseResult",
       Json.obj
         [("finalUrl", Json.str "https://example.com/"),
          ("audits", sampleAudits)])]

/-- The datetime parsed from `samplePsi`'s timestamp. -/
def sampleDate : PyDateTime := ⟨2022, 5, 1, 12, 34, 56, 789012⟩

/-- The row `extract_audits` produces from `samplePsi`. -/
def sampleRow : Row :=
  ("date", PyVal.dt sampleDate) ::
    ("url", PyVal.json (Json.str "https://example.com/")) ::
      auditsMap.map (fun p => (p.2, PyVal.json (Json.num 1234)))

/-- An environment defining both required variables. -/
def env0 : String → Option String := fun k =>
  if k = "GOOGLE_CLOUD_PROJECT" then some "proj"
  else if k = "BIGQUERY_TABLE" then some "ds.audits" else none

/-- A BigQuery stub that accepts every row. -/
def behOk : BQBehavior := ⟨fun r => .ok r, fun _ _ => []⟩

/-- A BigQuery stub that rejects every batch with one row-level error. -/
def behBad : BQBehavior := ⟨fun r => .ok r, fun _ _ => ["stream error"]⟩

/-- An empty BigQuery table state. -/
def st0 : BQState := ⟨[]⟩

/-- A PSI API stub returning the complete report for every URL. -/
def api0 : String → Except HttpError Json := fun _ => .ok samplePsi

/-- A form carrying `test_url=https://example.com`. -/
def form0 : String → Option String := fun k =>
  if k = "test_url" then some "https://example.com" else none

/-! ## Helper lemmas -/

theorem extractLoop_all_ok (psi : Json) (l : List (String × String))
    (v : String → Json) (hv : ∀ p ∈ l, metricLookup psi p.1 = .ok (v p.1)) :
    extractLoop psi l = (l.map (fun p => (p.2, PyVal.json (v p.1))), none) := by
  induction l with
  | nil => rfl
  | cons hd tl ih =>
      obtain ⟨a, name⟩ := hd
      have h1 : metricLookup psi a = .ok (v a) := hv (a, name) (by simp)
      have h2 : ∀ p ∈ tl, metricLookup psi p.1 = .ok (v p.1) := fun p hp =>
        hv p (List.mem_cons_of_mem _ hp)
      simp only [extractLoop, h1, ih h2, List.map_cons]

theorem extractLoop_ok_mem (psi : Json) (l : List (String × String)) (r : Row)
    (h : extractLoop psi l = (r, none)) :
    ∀ p ∈ l, ∃ w, metricLookup psi p.1 = .ok w := by
  induction l generalizing r with
  | nil => intro p hp; exact absurd hp (List.not_mem_nil p)
  | cons hd tl ih =>
      obtain ⟨a, name⟩ := hd
      intro p hp
      unfold extractLoop at h
      cases hm : metricLookup psi a with
      | error e => rw [hm] at h; simp at h
      | ok w =>
          rw [hm] at h
          cases hl : extractLoop psi tl with
          | mk r2 exc =>
              rw [hl] at h
              simp only [Prod.mk.injEq] at h
              rcases List.mem_cons.mp hp with hpe | hpm
              · exact ⟨w, hpe ▸ hm⟩
              · exact ih r2 (by rw [hl, h.2]) p hpm

theorem parseTimestamp_ok (j : Json) (d : PyDateTime)
    (h : parseTimestamp j = .ok d) :
    ∃ s, j = .str s ∧ strptimePSI s = some d := by
  cases j with
  | str s =>
      refine ⟨s, rfl, ?_⟩
      simp only [parseTimestamp] at h
      split at h
      · next d2 heq =>
          simp only [Except.ok.injEq] at h
          rw [heq, h]
      · simp at h
  | null => simp [parseTimestamp] at h
  | bool b => simp [parseTimestamp] at h
  | num q => simp [parseTimestamp] at h
  | arr xs => simp [parseTimestamp] at h
  | obj kvs => simp [parseTimestamp] at h

/-! ## Claim theorems -/

/-- C1: for every audit response with a parseable `analysisUTCTimestamp`,
a `lighthouseResult.finalUrl`, and a `numericValue` under
`lighthouseResult.audits[id]` for each of the 13 fixed metric ids,
`extract_audits` returns a row with exactly 15 keys (`date`, `url` and
the 13 underscored metric names) and no extras, whose `url` is the
response's `finalUrl` and whose metric keys hold exactly the
corresponding `numericValue`s, unchanged. -/
theorem extract_audits_complete_row (psi : Json) (ts : String)
    (d : PyDateTime) (u : Json) (v : String → Json)
    (hts : psi.getItem "analysisUTCTimestamp" = .ok (.str ts))
    (hd : strptimePSI ts = some d)
    (hu : urlLookup psi = .ok u)
    (hv : ∀ p ∈ auditsMap, metricLookup psi p.1 = .ok (v p.1)) :
    ∃ row, extract_audits psi = .ok row ∧
      row = ("date", PyVal.dt d) :: ("url", PyVal.json u) ::
        auditsMap.map (fun p => (p.2, PyVal.json (v p.1))) ∧
      row.map Prod.fst =
        ["date", "url", "speed_index", "first_contentful_paint",
         "first_meaningful_paint", "server_response_time",
         "network_server_latency", "cumulative_layout_shift", "interactive",
         "largest_contentful_paint", "total_blocking_time", "first_cpu_idle",
         "max_potential_fid", "total_byte_weight", "estimated_input_latency"] ∧
      row.length = 15 ∧
      row.lookup "url" = some (PyVal.json u) ∧
      ∀ p ∈ auditsMap, row.lookup p.2 = some (PyVal.json (v p.1)) := by
  have hloop := extractLoop_all_ok psi auditsMap v hv
  have hrun : extract_auditsRun psi =
      (("date", PyVal.dt d) :: ("url", PyVal.json u) ::
        auditsMap.map (fun p => (p.2, PyVal.json (v p.1))), none) := by
    unfold extract_auditsRun
    rw [hts]
    simp only [parseTimestamp, hd]
    rw [hu, hloop]
  refine ⟨_, ?_, rfl, ?_, ?_, ?_, ?_⟩
  · unfold extract_audits
    rw [hrun]
  · rfl
  · rfl
  · rfl
  · intro p hp
    fin_cases hp <;> rfl

/-- C1 witness: the theorem applied to the concrete complete response
`samplePsi`. -/
theorem extract_audits_complete_row_witness :
    ∃ row, extract_audits samplePsi = .ok row ∧
      row = ("date", PyVal.dt sampleDate) ::
        ("url", PyVal.json (Json.str "https://example.com/")) ::
        auditsMap.map (fun p => (p.2, PyVal.json (Json.num 1234))) ∧
      row.map Prod.fst =
        ["date", "url", "speed_index", "first_contentful_paint",
         "first_meaningful_paint", "server_response_time",
         "network_server_latency", "cumulative_layout_shift", "interactive",
         "largest_contentful_paint", "total_blocking_time", "first_cpu_idle",
         "max_potential_fid", "total_byte_weight", "estimated_input_latency"] ∧
      row.length = 15 ∧
      row.lookup "url" = some (PyVal.json (Json.str "https://example.com/")) ∧
      ∀ p ∈ auditsMap,
        row.lookup p.2 = some (PyVal.json (Json.num 1234)) :=
  extract_audits_complete_row samplePsi "2022-05-01T12:34:56.789012Z"
    sampleDate (Json.str "https://example.com/") (fun _ => Json.num 1234)
    rfl rfl rfl (by intro p hp; fin_cases hp <;> rfl)

/-- C2: `extract_audits` never returns a partial row: whenever it
returns a row at all, the timestamp was present and parseable, the
nested `finalUrl` lookup succeeded, and every one of the 13 nested
metric lookups succeeded; contrapositively, a response missing any of
these at any nesting level makes extraction fail. -/
theorem extract_audits_no_partial_row (psi : Json) (row : Row)
    (h : extract_audits psi = .ok row) :
    (∃ ts d, psi.getItem "analysisUTCTimestamp" = .ok (.str ts) ∧
      strptimePSI ts = some d) ∧
    (∃ u, urlLookup psi = .ok u) ∧
    (∀ p ∈ auditsMap, ∃ w, metricLookup psi p.1 = .ok w) := by
  unfold extract_audits at h
  cases hrun : extract_auditsRun psi with
  | mk r exc =>
      rw [hrun] at h
      cases exc with
      | some e => simp at h
      | none =>
          unfold extract_auditsRun at hrun
          split at hrun
          next e hts => simp at hrun
          next tsj hts =>
            split at hrun
            next e hpt => simp at hrun
            next d hpt =>
              split at hrun
              next e hu => simp at hrun
              next u hu =>
                split at hrun
                next r2 exc2 hloop =>
                  simp only [Prod.mk.injEq] at hrun
                  obtain ⟨s, rfl, hs⟩ := parseTimestamp_ok tsj d hpt
                  refine ⟨⟨s, d, hts, hs⟩, ⟨u, hu⟩, ?_⟩
                  exact extractLoop_ok_mem psi auditsMap r2
                    (by rw [hloop, hrun.2])

/-- C2 witness: the theorem applied to the concrete complete response
`samplePsi` and its row. -/
theorem extract_audits_no_partial_row_witness :
    (∃ ts d, samplePsi.getItem "analysisUTCTimestamp" = .ok (.str ts) ∧
      strptimePSI ts = some d) ∧
    (∃ u, urlLookup samplePsi = .ok u) ∧
    (∀ p ∈ auditsMap, ∃ w, metricLookup samplePsi p.1 = .ok w) :=
  extract_audits_no_partial_row samplePsi sampleRow rfl

/-- C5: when the remote PSI call raises an `HttpError`, `get_psi_audit`
logs the status code and error details and returns `None`
(`Json.null`); the `HttpError` is caught inside the function, so it
never reaches the caller (the function's result type has no error
case). -/
theorem get_psi_audit_suppresses_http_error
    (api : String → Except HttpError Json) (test_url : String)
    (he : HttpError) (h : api test_url = .error he) :
    get_psi_audit api test_url =
      ([LogEntry.psiError he.status_code he.error_details], Json.null) := by
  unfold get_psi_audit
  rw [h]

/-- C5 witness: the theorem applied to an API stub failing with a
concrete 404. -/
theorem get_psi_audit_suppresses_http_error_witness :
    get_psi_audit (fun _ => .error ⟨404, "not found"⟩) "https://example.com" =
      ([LogEntry.psiError 404 "not found"], Json.null) :=
  get_psi_audit_suppresses_http_error _ "https://example.com"
    ⟨404, "not found"⟩ rfl

/-- C8: the timestamp is parsed with the format
`%Y-%m-%dT%H:%M:%S.%fZ`: the input `2022-05-01T12:34:56.789012Z` parses
to 2022-05-01 12:34:56.789012 with microsecond precision preserved, and
any timestamp string not matching the format makes extraction fail with
a `ValueError`. -/
theorem extract_audits_timestamp_format :
    strptimePSI "2022-05-01T12:34:56.789012Z" =
      some ⟨2022, 5, 1, 12, 34, 56, 789012⟩ ∧
    ∀ psi s, psi.getItem "analysisUTCTimestamp" = .ok (.str s) →
      strptimePSI s = none →
      ∃ m, extract_audits psi = .error (.valueError m) := by
  constructor
  · rfl
  · intro psi s hts hs
    refine ⟨"time data does not match format", ?_⟩
    unfold extract_audits extract_auditsRun
    rw [hts]
    simp only [parseTimestamp, hs]

/-- C8 witness: the theorem applied to a response whose timestamp does
not match the format. -/
theorem extract_audits_timestamp_format_witness :
    ∃ m, extract_audits
      (Json.obj [("analysisUTCTimestamp", Json.str "2022-05-01")]) =
        .error (.valueError m) :=
  extract_audits_timestamp_format.2
    (Json.obj [("analysisUTCTimestamp", Json.str "2022-05-01")])
    "2022-05-01" rfl rfl

/-- C4: `insert_audits` raises an error iff the per-row error collection
returned by the single-row insert call is non-empty; when it raises, the
`RuntimeError` message carries the original error collection verbatim;
when the collection is empty it returns normally. -/
theorem insert_audits_error_iff_nonempty (env : String → Option String)
    (beh : BQBehavior) (st : BQState) (table : String) (audits : Row)
    (project handle : String)
    (hp : env "GOOGLE_CLOUD_PROJECT" = some project)
    (ht : beh.getTable (project ++ "." ++ table) = .ok handle) :
    (beh.rowErrors handle [audits] = [] →
      insert_audits env beh st table audits =
        (⟨st.batches ++ [(handle, [audits])]⟩, .ok ())) ∧
    (beh.rowErrors handle [audits] ≠ [] →
      insert_audits env beh st table audits =
        (⟨st.batches ++ [(handle, [audits])]⟩,
         .error (.runtimeError ("Failed to write all rows to bigquery: "
           ++ pyListStr (beh.rowErrors handle [audits]) ++ ".")))) := by
  constructor
  · intro he
    simp only [insert_audits, insert_rows, hp, ht, he, List.isEmpty_nil,
      if_true]
  · intro he
    have hE : (beh.rowErrors handle [audits]).isEmpty = false := by
      simpa [List.isEmpty_iff] using he
    simp only [insert_audits, insert_rows, hp, ht, hE, Bool.false_eq_true,
      if_false]

/-- C4 witness: the theorem applied to the always-rejecting stub
`behBad`, whose single rejection detail appears in the message. -/
theorem insert_audits_error_iff_nonempty_witness :
    insert_audits env0 behBad st0 "ds.audits" sampleRow =
      (⟨[("proj.ds.audits", [sampleRow])]⟩,
       .error (.runtimeError
         "Failed to write all rows to bigquery: [\x27stream error\x27].")) :=
  (insert_audits_error_iff_nonempty env0 behBad st0 "ds.audits" sampleRow
    "proj" "proj.ds.audits" rfl rfl).2 (by simp [behBad])

/-- C7: `insert_audits` resolves the destination table from the
`GOOGLE_CLOUD_PROJECT` environment variable joined with the given table
name, and a row produced by `extract_audits` and passed to it is
submitted as exactly one single-row batch with the field values
unchanged in transit. -/
theorem insert_audits_single_row_batch (psi : Json) (row : Row)
    (env : String → Option String) (beh : BQBehavior) (st : BQState)
    (table project : String)
    (_hex : extract_audits psi = .ok row)
    (hp : env "GOOGLE_CLOUD_PROJECT" = some project)
    (ht : beh.getTable (project ++ "." ++ table) =
      .ok (project ++ "." ++ table)) :
    (insert_audits env beh st table row).1.batches =
      st.batches ++ [(project ++ "." ++ table, [row])] := by
  cases hE : (beh.rowErrors (project ++ "." ++ table) [row]).isEmpty <;>
    simp only [insert_audits, insert_rows, hp, ht, hE, Bool.false_eq_true,
      if_false, if_true]

/-- C7 witness: the theorem applied to the concrete row extracted from
`samplePsi`, inserted through the accepting stub. -/
theorem insert_audits_single_row_batch_witness :
    (insert_audits env0 behOk st0 "ds.audits" sampleRow).1.batches =
      [("proj.ds.audits", [sampleRow])] :=
  insert_audits_single_row_batch samplePsi sampleRow env0 behOk st0
    "ds.audits" "proj" rfl rfl rfl

/-- C9: the submit handler catches only `ValueError` and `RuntimeError`,
and only around the insert step: an exception raised by extraction (a
`KeyError` for a missing field, or the `TypeError` arising when the
audit requester degraded an HTTP failure to `None`) propagates out of
the handler uncaught, so neither the success nor the failure page is
rendered. -/
theorem submit_test_extraction_errors_propagate
    (env : String → Option String) (beh : BQBehavior) (st : BQState)
    (api : String → Except HttpError Json) (form : String → Option String)
    (url : String) (hform : form "test_url" = some url) :
    (∀ psi e, api url = .ok psi → extract_audits psi = .error e →
      submit_test env beh st api form = ([], st, .error e)) ∧
    (∀ he, api url = .error he →
      submit_test env beh st api form =
        ([LogEntry.psiError he.status_code he.error_details], st,
          .error PyExc.typeError)) := by
  constructor
  · intro psi e hapi hex
    simp only [submit_test, hform, get_psi_audit, hapi, hex]
  · intro he hapi
    simp only [submit_test, hform, get_psi_audit, hapi]
    rfl

/-- C9 witness: the theorem applied to an API stub failing with a
concrete HTTP 500, whose degraded `None` result makes extraction raise
`TypeError`, which escapes the handler. -/
theorem submit_test_extraction_errors_propagate_witness :
    submit_test env0 behOk st0 (fun _ => .error ⟨500, "backend error"⟩)
      form0 =
      ([LogEntry.psiError 500 "backend error"], st0, .error PyExc.typeError) :=
  (submit_test_extraction_errors_propagate env0 behOk st0
    (fun _ => .error ⟨500, "backend error"⟩) form0 "https://example.com"
    rfl).2 ⟨500, "backend error"⟩ rfl

/-- C10: `extract_audits` never mutates its input: in the heap model
the cells that existed before the call are unchanged afterwards, whether
the call returns or raises, and the returned row is a newly allocated
dict (its address is the first fresh one). -/
theorem extract_audits_no_input_mutation (h : List Row) (psi : Json) :
    ((extract_auditsHeap h psi).1.take h.length = h) ∧
    (∀ i, i < h.length → (extract_auditsHeap h psi).1[i]? = h[i]?) ∧
    (∀ a, (extract_auditsHeap h psi).2 = .ok a → a = h.length) := by
  unfold extract_auditsHeap
  cases hrun : extract_auditsRun psi with
  | mk row exc =>
      cases exc with
      | none =>
          refine ⟨List.take_left h [row], fun i hi => ?_, fun a ha => ?_⟩
          · exact List.getElem?_append_left hi
          · injection ha with ha
            exact ha.symm
      | some e =>
          refine ⟨List.take_left h [row], fun i hi => ?_, fun a ha => ?_⟩
          · exact List.getElem?_append_left hi
          · simp at ha

/-- C10 witness: the theorem applied to a one-cell heap and the complete
response `samplePsi`: the pre-existing cell is unchanged and the
returned address is the fresh one. -/
theorem extract_audits_no_input_mutation_witness :
    (extract_auditsHeap [sampleRow] samplePsi).1[0]? = [sampleRow][0]? ∧
    (1 : Nat) = 1 :=
  ⟨(extract_audits_no_input_mutation [sampleRow] samplePsi).2.1 0
      (by decide),
   (extract_audits_no_input_mutation [sampleRow] samplePsi).2.2 1 rfl⟩

/-- C3 counterexample: a request whose audit report lacks
`analysisUTCTimestamp` makes extraction raise `KeyError`, and that
failure escapes `submit_test` uncaught instead of being logged and
rendered as the `failure` state. -/
theorem submit_test_extraction_error_escapes_cex :
    submit_test env0 behOk st0 (fun _ => .ok (Json.obj [])) form0 =
      ([], st0, .error (.keyError "analysisUTCTimestamp")) ∧
    (submit_test env0 behOk st0 (fun _ => .ok (Json.obj [])) form0).2.2 ≠
      .ok (Render.index (some "failure")) := by
  refine ⟨rfl, ?_⟩
  have h : (submit_test env0 behOk st0 (fun _ => .ok (Json.obj [])) form0).2.2
      = .error (.keyError "analysisUTCTimestamp") := rfl
  rw [h]
  simp

/-- C3 (amended): failures raised during insertion that are
`ValueError` or `RuntimeError` are caught at the submit handler, logged,
and rendered as the single `failure` state; failures raised during
extraction are not caught there and propagate out of the handler. -/
theorem submit_test_insert_failures_caught
    (env : String → Option String) (beh : BQBehavior) (st : BQState)
    (api : String → Except HttpError Json) (form : String → Option String)
    (url : String) (hform : form "test_url" = some url) :
    (∀ psi row table st2 e, api url = .ok psi →
      extract_audits psi = .ok row → env "BIGQUERY_TABLE" = some table →
      insert_audits env beh st table row = (st2, .error e) →
      e.isCaught = true →
      submit_test env beh st api form =
        ([LogEntry.errLog e], st2, .ok (Render.index (some "failure")))) ∧
    (∀ psi e, api url = .ok psi → extract_audits psi = .error e →
      submit_test env beh st api form = ([], st, .error e)) := by
  constructor
  · intro psi row table st2 e hapi hex henv hins hc
    simp only [submit_test, hform, get_psi_audit, hapi, hex, henv, hins, hc,
      if_true, List.nil_append]
  · intro psi e hapi hex
    simp only [submit_test, hform, get_psi_audit, hapi, hex]

/-- C3 witness: the caught-insertion part applied to the rejecting stub
`behBad` on the complete report. -/
theorem submit_test_insert_failures_caught_witness :
    submit_test env0 behBad st0 api0 form0 =
      ([LogEntry.errLog (.runtimeError
          "Failed to write all rows to bigquery: [\x27stream error\x27].")],
        ⟨[("proj.ds.audits", [sampleRow])]⟩,
        .ok (Render.index (some "failure"))) :=
  (submit_test_insert_failures_caught env0 behBad st0 api0 form0
    "https://example.com" rfl).1 samplePsi sampleRow "ds.audits"
    ⟨[("proj.ds.audits", [sampleRow])]⟩
    (.runtimeError
      "Failed to write all rows to bigquery: [\x27stream error\x27].")
    rfl rfl rfl rfl rfl

/-- C6: with the audit API returning the complete well-formed report, a
POST /submit whose insert reports no errors renders `success`; the same
request with one row-level insert error renders `failure` with the
error logged; and `success` and `failure` are the only states
`submit_test` can render. -/
theorem submit_test_two_render_states :
    submit_test env0 behOk st0 api0 form0 =
      ([], ⟨[("proj.ds.audits", [sampleRow])]⟩,
        .ok (Render.index (some "success"))) ∧
    submit_test env0 behBad st0 api0 form0 =
      ([LogEntry.errLog (.runtimeError
          "Failed to write all rows to bigquery: [\x27stream error\x27].")],
        ⟨[("proj.ds.audits", [sampleRow])]⟩,
        .ok (Render.index (some "failure"))) ∧
    ∀ (env : String → Option String) (beh : BQBehavior) (st : BQState)
      (api : String → Except HttpError Json) (form : String → Option String)
      (logs : List LogEntry) (st2 : BQState) (r : Render),
      submit_test env beh st api form = (logs, st2, .ok r) →
      r = Render.index (some "success") ∨
        r = Render.index (some "failure") := by
  refine ⟨rfl, rfl, ?_⟩
  intro env beh st api form logs st2 r h
  unfold submit_test at h
  split at h
  · simp at h
  next test_url hform =>
    split at h
    next psiLogs psi hg =>
      split at h
      next e hex => simp at h
      next audits hex =>
        split at h
        next henv => simp at h
        next bq_table henv =>
          split at h
          next st3 u hins =>
            simp only [Prod.mk.injEq, Except.ok.injEq] at h
            left
            exact h.2.2.symm
          next st3 err hins =>
            split at h
            · simp only [Prod.mk.injEq, Except.ok.injEq] at h
              right
              exact h.2.2.symm
            · simp at h

/-- C6 witness: the only-two-states part applied to the concrete
success scenario. -/
theorem submit_test_two_render_states_witness :
    Render.index (some "success") = Render.index (some "success") ∨
    Render.index (some "success") = Render.index (some "failure") :=
  submit_test_two_render_states.2.2 env0 behOk st0 api0 form0 []
    ⟨[("proj.ds.audits", [sampleRow])]⟩ (Render.index (some "success")) rfl
